import Mathlib

/-!
Shallow embedding of the memory/context models of `agent_sdk`
(`src/agent_sdk/models/memory.py`), together with proofs about the
pruning predicate, relevance scorer, expiry check, refresh-status
lifecycle and construction-time validation.

Conventions of the embedding:
* Python `datetime` values are modelled as `Int` seconds since an epoch;
  `timedelta.days` is floor division by 86400 (`Int.fdiv`).
* Python `float` is modelled as `ℝ` where square roots are involved
  (the cosine-similarity scorer) and as `ℚ` elsewhere.
* `UUID` is modelled as `Nat`; `dict[str, Any]` metadata as an
  association list `List (String × String)` (opaque to all operations).
* A Python method that mutates `self` becomes a function
  `State → ... → State`; the wall clock (`datetime.utcnow()`) becomes an
  explicit `now : Int` argument.
* pydantic construction-time validation of a model becomes a
  `validate` function returning `Except String α`, checking exactly the
  `Field` constraints declared in the source for that model.
-/

/-- `MemoryTier` enum (memory.py lines 11-16). -/
inductive MemoryTier where
  | short_term
  | mid_term
  | long_term
deriving DecidableEq, Repr

/-- `sum(a * b for a, b in zip(emb, query))` (memory.py line 163):
dot product over the zip of the two lists, which silently truncates to
the shorter length. -/
def dotZip (a b : List ℝ) : ℝ :=
  ((a.zip b).map (fun p => p.1 * p.2)).sum

/-- `sum(x * x for x in v)` (memory.py lines 164-165): the squared
magnitude of a vector. -/
def sumSq (v : List ℝ) : ℝ :=
  (v.map (fun x => x * x)).sum

/-- `CacheEntry` (memory.py lines 131-142). None of its fields carry a
numeric `Field` constraint in the source: in particular `access_count`
is declared `Field(0, description=...)` with no `ge` bound. -/
structure CacheEntry where
  id : Nat
  content : String
  embedding : Option (List ℝ)
  topic : String
  tier : MemoryTier
  created_at : Int
  accessed_at : Int
  access_count : Int
  metadata : List (String × String)

/-- `CacheEntry.touch` (memory.py lines 144-147): sets `accessed_at` to
the current time and increments `access_count`. -/
def CacheEntry.touch (e : CacheEntry) (now : Int) : CacheEntry :=
  { e with accessed_at := now, access_count := e.access_count + 1 }

/-- `CacheEntry.calculate_relevance_score` (memory.py lines 149-170):
cosine similarity of `e.embedding` with `query_embedding`; `0.0` when
the entry embedding is `None`, the query is empty, or either magnitude
is zero. The dot product runs over `zip`, the magnitudes over the full
vectors. The Python function has no raise statement: it is total. -/
noncomputable def CacheEntry.calculate_relevance_score
    (e : CacheEntry) (query_embedding : List ℝ) : ℝ :=
  match e.embedding with
  | none => 0
  | some emb =>
    if query_embedding.isEmpty then 0
    else
      let dot_product := dotZip emb query_embedding
      let magnitude_a := Real.sqrt (sumSq emb)
      let magnitude_b := Real.sqrt (sumSq query_embedding)
      if magnitude_a = 0 ∨ magnitude_b = 0 then 0
      else dot_product / (magnitude_a * magnitude_b)

/-- `CacheEntry.should_prune` (memory.py lines 172-184): the body only
compares the entry's age in days with `max_age_days`. The `threshold`
parameter is accepted (documented as "Minimum relevance threshold") but
never read, and no query embedding is taken at all. -/
def CacheEntry.should_prune (e : CacheEntry) (now : Int)
    (threshold : ℝ) (max_age_days : Int) : Bool :=
  let age_days := (now - e.created_at).fdiv 86400
  decide (age_days > max_age_days)

/-- pydantic construction-time validation for `CacheEntry`
(memory.py lines 131-142): the model declares no `ge`/`le` constraint on
any field — `access_count` in particular — so every structurally
well-typed value is accepted as-is. -/
def CacheEntry.validate (e : CacheEntry) : Except String CacheEntry :=
  Except.ok e

/-- `ContextSummary` (memory.py lines 34-46). The only numeric `Field`
constraint in the source is `weight: Field(..., ge=0.0, le=1.0)`.
The model subclasses `pydantic.BaseModel` directly (memory.py line 8),
not the SDK `BaseModel` of `base.py`, so `validate_assignment` is not
enabled. -/
structure ContextSummary where
  id : Nat
  topic : String
  summary : String
  weight : ℚ
  embedding_id : Option String
  tier : MemoryTier
  created_at : Int
  accessed_at : Int
  expires_at : Option Int
  metadata : List (String × String)
deriving DecidableEq, Repr

/-- pydantic construction-time validation for `ContextSummary`
(memory.py line 40): rejects exactly when `weight` falls outside
`[0.0, 1.0]`. -/
def ContextSummary.validate (s : ContextSummary) : Except String ContextSummary :=
  if 0 ≤ s.weight ∧ s.weight ≤ 1 then Except.ok s
  else Except.error "ValidationError: weight"

/-- Field assignment `s.weight = w` on a `ContextSummary`. Because the
model subclasses `pydantic.BaseModel` (memory.py line 8) and pydantic
leaves `validate_assignment` off by default, assignment stores the value
without re-running the `Field` validators. -/
def ContextSummary.set_weight (s : ContextSummary) (w : ℚ) : ContextSummary :=
  { s with weight := w }

/-- `ContextSummary.is_expired` (memory.py lines 48-52): `False` when
`expires_at` is unset, otherwise `utcnow() > expires_at` — a strict
comparison. -/
def ContextSummary.is_expired (s : ContextSummary) (now : Int) : Bool :=
  match s.expires_at with
  | none => false
  | some t => decide (now > t)

/-- `RefreshStatus` (memory.py lines 187-201). -/
structure RefreshStatus where
  started_at : Int
  completed_at : Option Int
  success : Bool
  mnemosyne_available : Bool
  context_confidence : ℚ
  entries_pruned : Int
  summaries_created : Int
  updates_pushed : Int
  errors : List String
  metadata : List (String × String)
deriving DecidableEq, Repr

/-- A fresh `RefreshStatus` with the field defaults of the source
(memory.py lines 190-201): `completed_at=None`, `success=False`,
`mnemosyne_available=False`, counters `0`, `errors=[]`. -/
def RefreshStatus.init (started_at : Int) : RefreshStatus :=
  { started_at := started_at
    completed_at := none
    success := false
    mnemosyne_available := false
    context_confidence := 0
    entries_pruned := 0
    summaries_created := 0
    updates_pushed := 0
    errors := []
    metadata := [] }

/-- `RefreshStatus.mark_complete` (memory.py lines 203-206): sets
`completed_at` to the current time and `success` to the given flag
(default `True` in the source), unconditionally. -/
def RefreshStatus.mark_complete (s : RefreshStatus) (now : Int)
    (success : Bool) : RefreshStatus :=
  { s with completed_at := some now, success := success }

/-- `RefreshStatus.add_error` (memory.py lines 208-211): appends the
error and sets `success = False`, with no guard on `completed_at`. -/
def RefreshStatus.add_error (s : RefreshStatus) (error : String) : RefreshStatus :=
  { s with errors := s.errors ++ [error], success := false }

/-- `ContextUpdate` (memory.py lines 119-128). -/
structure ContextUpdate where
  session_id : Nat
  agent : String
  accepted_ideas : List String
  rejected_ideas : List String
  summary_text : String
  timestamp : Int
  metadata : List (String × String)
deriving DecidableEq, Repr

/-- Modelled from the spec: result of `ArchiveClient.push` (§4.4, §6) —
`Ack | Unavailable`. `ArchiveClient` is an external collaborator with no
implementation under `src/`. -/
inductive PushResult where
  | ack
  | unavailable
deriving DecidableEq, Repr

/-- Modelled from the spec: step 4 of the `RefreshCycle` state machine
(§4.5), which has no implementation under `src/` (only the
`RefreshStatus` model is in source). Drains the queue of pending
`ContextUpdate`s, calling `push` for each; on `Unavailable` it stops
attempting further pushes for this run, records the error via
`RefreshStatus.add_error`, and sets `mnemosyne_available = false`. A
successful push counts in `updates_pushed`. -/
def RefreshCycle.push_phase (push : ContextUpdate → PushResult) :
    List ContextUpdate → RefreshStatus → RefreshStatus
  | [], s => s
  | u :: rest, s =>
    match push u with
    | PushResult.ack =>
        RefreshCycle.push_phase push rest
          { s with updates_pushed := s.updates_pushed + 1,
                   mnemosyne_available := true }
    | PushResult.unavailable =>
        { s.add_error "Unavailable" with mnemosyne_available := false }

/-- Modelled from the spec: the push step of a refresh run followed by
the transition to `Completed` (§4.5: a run transitions to `Failed` only
if pruning local state raises; archive unavailability "degrades, it does
not fail, the cycle", so the run ends with `mark_complete` and the
source's default `success=True`). -/
def RefreshCycle.run_push (push : ContextUpdate → PushResult)
    (updates : List ContextUpdate) (s : RefreshStatus) (now : Int) : RefreshStatus :=
  (RefreshCycle.push_phase push updates s).mark_complete now true

/-- Error taxonomy of the spec (§7) for scoring. Neither
`DimensionMismatch` nor any raise site exists anywhere under `src/`. -/
inductive ScoreError where
  | dimensionMismatch
deriving DecidableEq, Repr

/-- Modelled from the spec (spec-side definition, for comparing the
source scorer against the `RelevanceScorer` contract of §4.1): returns
`0.0` if either vector is absent or empty, rejects unequal lengths with
`DimensionMismatch`, returns `0.0` on zero magnitude, otherwise the
cosine similarity. -/
noncomputable def score_spec (query_embedding : List ℝ)
    (emb : Option (List ℝ)) : Except ScoreError ℝ :=
  match emb with
  | none => Except.ok 0
  | some v =>
    if v.isEmpty || query_embedding.isEmpty then Except.ok 0
    else if v.length ≠ query_embedding.length then
      Except.error ScoreError.dimensionMismatch
    else if Real.sqrt (sumSq v) = 0 ∨ Real.sqrt (sumSq query_embedding) = 0 then
      Except.ok 0
    else
      Except.ok (dotZip v query_embedding /
        (Real.sqrt (sumSq v) * Real.sqrt (sumSq query_embedding)))

/-! ## Helper lemmas -/

lemma sumSq_nil : sumSq ([] : List ℝ) = 0 := rfl

lemma sumSq_cons (a : ℝ) (l : List ℝ) : sumSq (a :: l) = a * a + sumSq l := by
  simp [sumSq]

lemma sumSq_nonneg (l : List ℝ) : 0 ≤ sumSq l := by
  induction l with
  | nil => simp [sumSq_nil]
  | cons a t ih =>
      rw [sumSq_cons]
      exact add_nonneg (mul_self_nonneg a) ih

lemma sumSq_one_zero : sumSq [(1 : ℝ), 0] = 1 := by
  rw [sumSq_cons, sumSq_cons, sumSq_nil]; ring

lemma sumSq_single_one : sumSq [(1 : ℝ)] = 1 := by
  rw [sumSq_cons, sumSq_nil]; ring

lemma sumSq_single_neg_one : sumSq [(-1 : ℝ)] = 1 := by
  rw [sumSq_cons, sumSq_nil]; ring

lemma sumSq_single_zero : sumSq [(0 : ℝ)] = 0 := by
  rw [sumSq_cons, sumSq_nil]; ring

lemma sqrt_sumSq_one_zero : Real.sqrt (sumSq [(1 : ℝ), 0]) = 1 := by
  rw [sumSq_one_zero, Real.sqrt_one]

lemma sqrt_sumSq_one_zero_ne : Real.sqrt (sumSq [(1 : ℝ), 0]) ≠ 0 := by
  rw [sqrt_sumSq_one_zero]; exact one_ne_zero

lemma sqrt_sumSq_single_one : Real.sqrt (sumSq [(1 : ℝ)]) = 1 := by
  rw [sumSq_single_one, Real.sqrt_one]

lemma sqrt_sumSq_single_one_ne : Real.sqrt (sumSq [(1 : ℝ)]) ≠ 0 := by
  rw [sqrt_sumSq_single_one]; exact one_ne_zero

lemma sqrt_sumSq_single_neg_one : Real.sqrt (sumSq [(-1 : ℝ)]) = 1 := by
  rw [sumSq_single_neg_one, Real.sqrt_one]

lemma sqrt_sumSq_single_neg_one_ne : Real.sqrt (sumSq [(-1 : ℝ)]) ≠ 0 := by
  rw [sqrt_sumSq_single_neg_one]; exact one_ne_zero

/-- `zip` only ever sees the common prefix of its arguments: each list
may be truncated to the other's length without changing the zip. -/
lemma zip_take_take (l₁ l₂ : List ℝ) :
    l₁.zip l₂ = (l₁.take l₂.length).zip (l₂.take l₁.length) := by
  induction l₁ generalizing l₂ with
  | nil => simp
  | cons a t₁ ih =>
      cases l₂ with
      | nil => simp
      | cons b t₂ =>
          simp only [List.zip_cons_cons, List.length_cons, List.take_succ_cons]
          rw [ih t₂]

lemma dotZip_take_take (l₁ l₂ : List ℝ) :
    dotZip l₁ l₂ = dotZip (l₁.take l₂.length) (l₂.take l₁.length) := by
  unfold dotZip
  rw [← zip_take_take]

/-! ## Concrete instances used in counterexamples and witnesses -/

/-- Cache entry of the spec's pruning scenario: topic `"ai"`, embedding
`[1, 0]`, created at epoch 0 (so 40 days old at `now = 3456000`). -/
def entryAi : CacheEntry :=
  { id := 0, content := "ai content", embedding := some [1, 0], topic := "ai"
    tier := MemoryTier.short_term, created_at := 0, accessed_at := 0
    access_count := 0, metadata := [] }

/-- Cache entry with one-dimensional embedding `[1]`. -/
def entryOne : CacheEntry :=
  { id := 1, content := "c", embedding := some [1], topic := "t"
    tier := MemoryTier.short_term, created_at := 0, accessed_at := 0
    access_count := 0, metadata := [] }

/-- Cache entry whose embedding `[0]` has zero magnitude. -/
def entryZeroVec : CacheEntry :=
  { id := 2, content := "z", embedding := some [0], topic := "t"
    tier := MemoryTier.short_term, created_at := 0, accessed_at := 0
    access_count := 0, metadata := [] }

/-- Cache entry with `access_count = -1`, as a value offered to the
write path. -/
def entryNegCount : CacheEntry :=
  { id := 3, content := "n", embedding := none, topic := "t"
    tier := MemoryTier.short_term, created_at := 0, accessed_at := 0
    access_count := -1, metadata := [] }

/-- Cache entry with `access_count = n`, as a value offered to the
write path. -/
def entryWithCount (n : Int) : CacheEntry :=
  { id := 3, content := "n", embedding := none, topic := "t"
    tier := MemoryTier.short_term, created_at := 0, accessed_at := 0
    access_count := n, metadata := [] }

/-- A validly constructed summary (weight `1/2`) with `expires_at`
set to `100`. -/
def summaryHalf : ContextSummary :=
  { id := 0, topic := "t", summary := "s", weight := 1/2
    embedding_id := none, tier := MemoryTier.mid_term, created_at := 0
    accessed_at := 0, expires_at := some 100, metadata := [] }

/-- A completed `RefreshStatus`: `completed_at = some 10`,
`success = true`, no errors. -/
def statusDone : RefreshStatus :=
  { started_at := 0, completed_at := some 10, success := true
    mnemosyne_available := true, context_confidence := 1
    entries_pruned := 0, summaries_created := 0, updates_pushed := 0
    errors := [], metadata := [] }

/-- A single queued context update. -/
def updateOne : ContextUpdate :=
  { session_id := 7, agent := "aletheia", accepted_ideas := []
    rejected_ideas := [], summary_text := "st", timestamp := 0
    metadata := [] }

/-! ## Claims -/

/-- Evaluation lemma for the unguarded branch of the scorer: with a
present embedding, a non-empty query and non-zero magnitudes, the score
is the cosine-similarity quotient. -/
lemma score_some (e : CacheEntry) (emb q : List ℝ)
    (h : e.embedding = some emb) (hq : q.isEmpty = false)
    (ha : Real.sqrt (sumSq emb) ≠ 0) (hb : Real.sqrt (sumSq q) ≠ 0) :
    e.calculate_relevance_score q =
      dotZip emb q / (Real.sqrt (sumSq emb) * Real.sqrt (sumSq q)) := by
  unfold CacheEntry.calculate_relevance_score
  rw [h]
  simp [hq, ha, hb]

lemma dotZip_nil_left (l : List ℝ) : dotZip [] l = 0 := rfl

lemma dotZip_nil_right (l : List ℝ) : dotZip l [] = 0 := by
  simp [dotZip]

lemma dotZip_cons (a b : ℝ) (l₁ l₂ : List ℝ) :
    dotZip (a :: l₁) (b :: l₂) = a * b + dotZip l₁ l₂ := by
  simp [dotZip]

/-- The score of the scenario entry (embedding `[1, 0]`) against the
query `[1, 0]` is `1`. -/
lemma score_entryAi_self : CacheEntry.calculate_relevance_score entryAi [1, 0] = 1 := by
  rw [score_some entryAi [1, 0] [1, 0] rfl rfl sqrt_sumSq_one_zero_ne sqrt_sumSq_one_zero_ne]
  rw [sqrt_sumSq_one_zero, dotZip_cons, dotZip_cons, dotZip_nil_left]
  norm_num

/-- Claim C9: one `touch` makes `access_count` exactly one greater and
sets `accessed_at` to the access time, leaving `id`, `content`,
`embedding`, `topic`, `tier`, `created_at` and `metadata` unchanged. -/
theorem touch_increments_access_count (e : CacheEntry) (now : Int) :
    (e.touch now).access_count = e.access_count + 1 ∧
    (e.touch now).accessed_at = now ∧
    (e.touch now).id = e.id ∧
    (e.touch now).content = e.content ∧
    (e.touch now).embedding = e.embedding ∧
    (e.touch now).topic = e.topic ∧
    (e.touch now).tier = e.tier ∧
    (e.touch now).created_at = e.created_at ∧
    (e.touch now).metadata = e.metadata :=
  ⟨rfl, rfl, rfl, rfl, rfl, rfl, rfl, rfl, rfl⟩

/-- Claim C1 (code bug): the spec's pruning scenario — entry created 40
days ago whose embedding scores `1.0 ≥ threshold 0.5` against the query
— is nevertheless pruned: `should_prune` compares age alone and ignores
its `threshold` parameter (no query embedding is even taken), so the
score does not override age. -/
theorem prune_ignores_relevance_at_forty_days :
    CacheEntry.should_prune entryAi 3456000 (1/2) 30 = true ∧
    CacheEntry.calculate_relevance_score entryAi [1, 0] = 1 ∧
    (1/2 : ℝ) ≤ CacheEntry.calculate_relevance_score entryAi [1, 0] := by
  refine ⟨rfl, score_entryAi_self, ?_⟩
  rw [score_entryAi_self]
  norm_num

/-- Claim C3 (code bug): the scorer returns the raw cosine similarity
with no clamp, so an entry with embedding `[1]` scored against query
`[-1]` yields `-1`, outside the `[0, 1]` range promised by the source
docstring and the spec. -/
theorem relevance_score_negative_not_clamped :
    CacheEntry.calculate_relevance_score entryOne [-1] = -1 ∧
    CacheEntry.calculate_relevance_score entryOne [-1] < 0 := by
  have h : CacheEntry.calculate_relevance_score entryOne [-1] = -1 := by
    rw [score_some entryOne [1] [-1] rfl rfl sqrt_sumSq_single_one_ne
      sqrt_sumSq_single_neg_one_ne]
    rw [sqrt_sumSq_single_one, sqrt_sumSq_single_neg_one, dotZip_cons, dotZip_nil_left]
    norm_num
  exact ⟨h, by rw [h]; norm_num⟩

/-- Claim C4 counterexample: at entry embedding `[1, 0]` and query `[1]`
(unequal non-zero lengths) the source scorer does not reject: it
computes `1.0` over the zip-truncated prefix, where the spec's
`RelevanceScorer` contract demands a `DimensionMismatch` rejection. -/
theorem relevance_score_mismatch_not_rejected :
    score_spec [1] (some [(1 : ℝ), 0]) = Except.error ScoreError.dimensionMismatch ∧
    CacheEntry.calculate_relevance_score entryAi [1] = 1 := by
  constructor
  · rfl
  · rw [score_some entryAi [1, 0] [1] rfl rfl sqrt_sumSq_one_zero_ne
      sqrt_sumSq_single_one_ne]
    rw [sqrt_sumSq_one_zero, sqrt_sumSq_single_one, dotZip_cons, dotZip_nil_right]
    norm_num

/-- Claim C4 (amended): mismatched lengths are not rejected; the scorer
is total and its dot product runs over the silently truncated common
prefix of the two vectors (while the magnitudes use each full vector). -/
theorem relevance_score_truncates_on_mismatch (e : CacheEntry) (emb q : List ℝ)
    (h : e.embedding = some emb) (hq : q.isEmpty = false)
    (ha : Real.sqrt (sumSq emb) ≠ 0) (hb : Real.sqrt (sumSq q) ≠ 0) :
    e.calculate_relevance_score q =
      dotZip (emb.take q.length) (q.take emb.length) /
        (Real.sqrt (sumSq emb) * Real.sqrt (sumSq q)) := by
  rw [score_some e emb q h hq ha hb, dotZip_take_take]

/-- Witness for the amended claim C4 at entry embedding `[1, 0]` and
query `[1]`. -/
theorem relevance_score_truncates_witness :
    CacheEntry.calculate_relevance_score entryAi [1] =
      dotZip ([(1 : ℝ), 0].take 1) ([(1 : ℝ)].take 2) /
        (Real.sqrt (sumSq [(1 : ℝ), 0]) * Real.sqrt (sumSq [(1 : ℝ)])) :=
  relevance_score_truncates_on_mismatch entryAi [1, 0] [1] rfl rfl
    sqrt_sumSq_one_zero_ne sqrt_sumSq_single_one_ne

/-- Claim C5 counterexample: a summary whose `expires_at` equals `now`
is not expired — `is_expired` uses the strict comparison
`utcnow() > expires_at`, so the claim's boundary case
(`expires_at <= now` counts as expired) fails at equality. -/
theorem is_expired_boundary_not_expired :
    ContextSummary.is_expired summaryHalf 100 = false ∧
    summaryHalf.expires_at = some 100 :=
  ⟨rfl, rfl⟩

/-- Claim C5 (amended): a `ContextSummary` is expired if and only if
`expires_at` is set and strictly earlier than `now`; a summary whose
`expires_at` equals `now` is not expired, and one with `expires_at`
unset never expires. -/
theorem is_expired_iff_strictly_past (s : ContextSummary) (now : Int) :
    s.is_expired now = true ↔ ∃ t, s.expires_at = some t ∧ t < now := by
  cases h : s.expires_at with
  | none => simp [ContextSummary.is_expired, h]
  | some t => simp [ContextSummary.is_expired, h]

/-- Claim C6 counterexample: `add_error` called on a `RefreshStatus`
whose `completed_at` is set still mutates it — `errors` gains the new
entry and `success` flips from `true` to `false` — so a completed
record is not immutable. -/
theorem add_error_after_completion_mutates :
    statusDone.completed_at = some 10 ∧
    statusDone.success = true ∧
    statusDone.errors = [] ∧
    (RefreshStatus.add_error statusDone "late").success = false ∧
    (RefreshStatus.add_error statusDone "late").errors = ["late"] :=
  ⟨rfl, rfl, rfl, rfl, rfl⟩

/-- Claim C6 (amended): a completed `RefreshStatus` is not immutable —
`add_error` still appends to `errors` and forces `success = false` —
but it changes nothing else: `started_at`, `completed_at`,
`mnemosyne_available`, `context_confidence` and all counters are
untouched. -/
theorem add_error_frame_after_completion (s : RefreshStatus) (msg : String)
    (h : s.completed_at.isSome = true) :
    (s.add_error msg).errors = s.errors ++ [msg] ∧
    (s.add_error msg).success = false ∧
    (s.add_error msg).started_at = s.started_at ∧
    (s.add_error msg).completed_at = s.completed_at ∧
    (s.add_error msg).mnemosyne_available = s.mnemosyne_available ∧
    (s.add_error msg).context_confidence = s.context_confidence ∧
    (s.add_error msg).entries_pruned = s.entries_pruned ∧
    (s.add_error msg).summaries_created = s.summaries_created ∧
    (s.add_error msg).updates_pushed = s.updates_pushed ∧
    (s.add_error msg).metadata = s.metadata :=
  ⟨rfl, rfl, rfl, rfl, rfl, rfl, rfl, rfl, rfl, rfl⟩

/-- Witness for the amended claim C6 on the concrete completed status. -/
theorem add_error_frame_witness :
    (RefreshStatus.add_error statusDone "boom").errors = statusDone.errors ++ ["boom"] ∧
    (RefreshStatus.add_error statusDone "boom").success = false ∧
    (RefreshStatus.add_error statusDone "boom").started_at = statusDone.started_at ∧
    (RefreshStatus.add_error statusDone "boom").completed_at = statusDone.completed_at ∧
    (RefreshStatus.add_error statusDone "boom").mnemosyne_available =
      statusDone.mnemosyne_available ∧
    (RefreshStatus.add_error statusDone "boom").context_confidence =
      statusDone.context_confidence ∧
    (RefreshStatus.add_error statusDone "boom").entries_pruned = statusDone.entries_pruned ∧
    (RefreshStatus.add_error statusDone "boom").summaries_created =
      statusDone.summaries_created ∧
    (RefreshStatus.add_error statusDone "boom").updates_pushed = statusDone.updates_pushed ∧
    (RefreshStatus.add_error statusDone "boom").metadata = statusDone.metadata :=
  add_error_frame_after_completion statusDone "boom" rfl

/-- Claim C7 counterexample: a cache entry with `access_count = -1` is
accepted by the write path unchanged — `CacheEntry` declares no bound on
`access_count`, so no `InvariantViolation` is raised and the stored
entry has a negative counter. -/
theorem negative_access_count_accepted :
    CacheEntry.validate entryNegCount = Except.ok entryNegCount ∧
    entryNegCount.access_count < 0 :=
  ⟨rfl, by decide⟩

/-- Claim C7 (amended): writing a cache entry performs no check on
`access_count` — any integer, negative included, is accepted and stored
as-is (the source declares no `ge` constraint on the field). -/
theorem access_count_not_validated (n : Int) :
    CacheEntry.validate (entryWithCount n) = Except.ok (entryWithCount n) ∧
    (entryWithCount n).access_count = n :=
  ⟨rfl, rfl⟩

/-- Claim C8: the scorer returns exactly `0.0` whenever the entry
embedding is absent, either vector is empty, or either vector has zero
squared magnitude — the guarded division is never reached in these
cases. -/
theorem relevance_score_zero_guards (e : CacheEntry) (q : List ℝ)
    (h : e.embedding = none ∨ q = [] ∨
      (∃ emb, e.embedding = some emb ∧ sumSq emb = 0) ∨ sumSq q = 0) :
    e.calculate_relevance_score q = 0 := by
  unfold CacheEntry.calculate_relevance_score
  rcases h with h | h | ⟨emb, he, hz⟩ | h
  · rw [h]
  · subst h
    cases he : e.embedding with
    | none => rfl
    | some emb => simp
  · rw [he]
    by_cases hq : q.isEmpty
    · simp [hq]
    · have hs : Real.sqrt (sumSq emb) = 0 := by rw [hz, Real.sqrt_zero]
      simp [hq, hs]
  · cases he : e.embedding with
    | none => rfl
    | some emb =>
      by_cases hq : q.isEmpty
      · simp [hq]
      · have hs : Real.sqrt (sumSq q) = 0 := by rw [h, Real.sqrt_zero]
        simp [hq, hs]

/-- Witness for claim C8: the zero-magnitude entry embedding `[0]`
scores exactly `0` against the non-zero query `[1]`. -/
theorem relevance_score_zero_guards_witness :
    CacheEntry.calculate_relevance_score entryZeroVec [1] = 0 :=
  relevance_score_zero_guards entryZeroVec [1]
    (Or.inr (Or.inr (Or.inl ⟨[0], rfl, sumSq_single_zero⟩)))

/-- Claim C10 counterexample: a validly constructed summary
(`weight = 1/2`) can be driven out of range by plain field assignment —
`set_weight (3/2)` stores `3/2 > 1` without any validation error, so an
out-of-range weight is observable after construction. -/
theorem weight_assignment_bypasses_validation :
    ContextSummary.validate summaryHalf = Except.ok summaryHalf ∧
    (ContextSummary.set_weight summaryHalf (3/2)).weight = 3/2 ∧
    ¬ ((3/2 : ℚ) ≤ 1) := by
  refine ⟨?_, rfl, by norm_num⟩
  unfold ContextSummary.validate
  rw [if_pos]
  exact ⟨by norm_num [summaryHalf], by norm_num [summaryHalf]⟩

/-- Claim C10 (amended): `weight ∈ [0, 1]` is enforced at construction
time only — `validate` accepts a summary exactly when its weight is in
range, while field assignment stores any value unvalidated (the model
subclasses `pydantic.BaseModel` directly, without the SDK base class
that enables `validate_assignment`). -/
theorem weight_validated_on_construction_only (s : ContextSummary) (w : ℚ) :
    (ContextSummary.validate s = Except.ok s ↔ 0 ≤ s.weight ∧ s.weight ≤ 1) ∧
    (ContextSummary.set_weight s w).weight = w := by
  refine ⟨?_, rfl⟩
  unfold ContextSummary.validate
  by_cases h : 0 ≤ s.weight ∧ s.weight ≤ 1
  · simp [h]
  · simp [h]

/-- Claim C2: a refresh run in which every archive push returns
`Unavailable` still completes successfully — the error is recorded and
`mnemosyne_available` cleared, and the final `mark_complete` (with the
source's default `success=True`) runs after `add_error`, so the
completed run shows `success = true`, `mnemosyne_available = false`,
non-empty `errors` and `updates_pushed = 0`. -/
theorem refresh_unavailable_still_completes
    (push : ContextUpdate → PushResult) (updates : List ContextUpdate)
    (t0 now : Int)
    (hall : ∀ u, push u = PushResult.unavailable)
    (hne : updates ≠ []) :
    (RefreshCycle.run_push push updates (RefreshStatus.init t0) now).success = true ∧
    (RefreshCycle.run_push push updates (RefreshStatus.init t0) now).mnemosyne_available
      = false ∧
    (RefreshCycle.run_push push updates (RefreshStatus.init t0) now).errors ≠ [] ∧
    (RefreshCycle.run_push push updates (RefreshStatus.init t0) now).updates_pushed = 0 := by
  cases updates with
  | nil => exact absurd rfl hne
  | cons u rest =>
      unfold RefreshCycle.run_push RefreshCycle.push_phase
      rw [hall u]
      simp [RefreshStatus.mark_complete, RefreshStatus.add_error, RefreshStatus.init]

/-- Witness for claim C2: one queued update, a push that always returns
`Unavailable`. -/
theorem refresh_unavailable_witness :
    (RefreshCycle.run_push (fun _ => PushResult.unavailable) [updateOne]
        (RefreshStatus.init 0) 5).success = true ∧
    (RefreshCycle.run_push (fun _ => PushResult.unavailable) [updateOne]
        (RefreshStatus.init 0) 5).mnemosyne_available = false ∧
    (RefreshCycle.run_push (fun _ => PushResult.unavailable) [updateOne]
        (RefreshStatus.init 0) 5).errors ≠ [] ∧
    (RefreshCycle.run_push (fun _ => PushResult.unavailable) [updateOne]
        (RefreshStatus.init 0) 5).updates_pushed = 0 :=
  refresh_unavailable_still_completes (fun _ => PushResult.unavailable)
    [updateOne] 0 5 (fun _ => rfl) (by simp)
